import Mathlib

/-!
Shallow embedding of `src/cli.py` (ModernCLITool): the two core functions
`process_file_core` and `list_items_core`, and the `process` command layer.
The filesystem is passed explicitly: an association list from path strings to
file contents for the transform/process side, and a tree of nodes for the
listing side.  Python strings are modelled as Lean `String`s (lists of Unicode
code points), Python `len` as `String.length`.
-/

namespace ModernCLI

/-- Modelled from Python's `str.upper` (full Unicode uppercase mapping, which
may expand a character to several).  The table is faithful on the characters
this development evaluates on: ASCII (`a`-`z` map to `A`-`Z`, everything else
is unchanged) and `ß` (U+00DF), which Python uppercases to the two-character
string `SS`.  Other non-ASCII characters are modelled as case-invariant; no
theorem below quantifies over them. -/
def pyUpperChar (c : Char) : List Char :=
  if 'a' ≤ c ∧ c ≤ 'z' then [Char.ofNat (c.toNat - 32)]
  else if c = 'ß' then ['S', 'S']
  else [c]

/-- Modelled from Python's `str.lower`, faithful on ASCII (`A`-`Z` map to
`a`-`z`, everything else unchanged); other non-ASCII characters are modelled
as case-invariant and no theorem below quantifies over them. -/
def pyLowerChar (c : Char) : List Char :=
  if 'A' ≤ c ∧ c ≤ 'Z' then [Char.ofNat (c.toNat + 32)]
  else [c]

/-- Python `content.upper()`. -/
def pyUpper (s : String) : String := ⟨s.data.flatMap pyUpperChar⟩

/-- Python `content.lower()`. -/
def pyLower (s : String) : String := ⟨s.data.flatMap pyLowerChar⟩

/-- The dictionary returned by `process_file_core` (src/cli.py lines 53-58). -/
structure TransformResult where
  original_size : Nat
  processed_size : Nat
  transform : String
  result : String
  deriving Repr, DecidableEq

/-- The exceptions the embedded code can raise.  `fileNotFound` models
Python's `FileNotFoundError` with its message. -/
inductive PyErr where
  | fileNotFound (msg : String)
  deriving Repr, DecidableEq

/-- The filesystem as seen by the transform/process side: an association list
from path strings to file contents.  A path absent from the list does not
exist. -/
def FileSys := List (String × String)

/-- The `if transform == "upper" / elif "lower" / else` chain of
`process_file_core` (src/cli.py lines 46-51), factored out so the command
layer's theorems can name the applied transform. -/
def pyTransform (transform content : String) : String :=
  if transform = "upper" then pyUpper content
  else if transform = "lower" then pyLower content
  else content

/-- `src/cli.py` lines 40-58, `process_file_core(filepath, transform)`.
The real function consults the filesystem via `filepath.exists()` and
`filepath.read_text()`; here the filesystem is the explicit `fs` argument.
The operation only reads: it takes the filesystem and returns a result,
never a modified filesystem. -/
def process_file_core (fs : FileSys) (filepath : String) (transform : String) :
    Except PyErr TransformResult :=
  match List.lookup filepath fs with
  | none => .error (.fileNotFound ("File not found: " ++ filepath))
  | some content =>
    let result := pyTransform transform content
    .ok { original_size := content.length
          processed_size := result.length
          transform := transform
          result := result }

/-- A filesystem node for the listing side: a regular file with its text
content and st_mtime, or a directory with its named children and st_mtime.
`st_size` of a file is the byte size of its (UTF-8) content. -/
inductive FSNode where
  | file (content : String) (mtime : Int)
  | dir (children : List (String × FSNode)) (mtime : Int)
  deriving Repr

def FSNode.isDir : FSNode → Bool
  | .dir _ _ => true
  | .file _ _ => false

def FSNode.children : FSNode → List (String × FSNode)
  | .dir cs _ => cs
  | .file _ _ => []

def FSNode.mtime : FSNode → Int
  | .dir _ m => m
  | .file _ m => m

/-- `st_size` for a file node; directories are never asked for a size by the
embedded code. -/
def FSNode.byteSize : FSNode → Nat
  | .file c _ => c.utf8ByteSize
  | .dir _ _ => 0

/-- Modelled from Python's `fnmatch` segment matching as used by
`pathlib.Path.glob`: `*` matches any (possibly empty) run of characters —
expressed as: the rest of the pattern matches some suffix of the string —
`?` matches exactly one character, every other character matches itself
(case-sensitively, as on POSIX).  Character classes `[...]` are not used by
any input in this development and are not modelled. -/
def globMatch : List Char → List Char → Bool
  | [], s => s.isEmpty
  | '*' :: ps, s => s.tails.any fun t => globMatch ps t
  | _ :: _, [] => false
  | '?' :: ps, _ :: s => globMatch ps s
  | p :: ps, c :: s => p = c && globMatch ps s

/-- Splitting a pattern at `/`, as `pathlib` does to obtain the glob's
segments (kept as a plain structural recursion so that the kernel can
evaluate it). -/
def splitOnSlash : List Char → List (List Char)
  | [] => [[]]
  | c :: rest =>
    if c = '/' then [] :: splitOnSlash rest
    else
      match splitOnSlash rest with
      | [] => [[c]]
      | s :: ss => (c :: s) :: ss

/-- The `/`-separated segments of a glob pattern. -/
def pyGlobSegments (pattern : String) : List (List Char) :=
  splitOnSlash pattern.data

/-- Python `Path(p).name`: the last non-empty `/`-separated component. -/
def pathBaseName (p : String) : String :=
  ⟨((splitOnSlash p.data).filter (fun s => s ≠ [])).getLastD []⟩

/-- The directories of the subtrees rooted at the given children, in
depth-first scan order: for each child that is a directory, the child
followed by its own subtree directories (the recursion of pathlib's
`_iterate_directories` below the starting directory). -/
def iterateDirsChildren : List (String × FSNode) → List (String × FSNode)
  | [] => []
  | (_, FSNode.file _ _) :: rest => iterateDirsChildren rest
  | (n, FSNode.dir cs m) :: rest =>
    ((n, FSNode.dir cs m) :: iterateDirsChildren cs) ++ iterateDirsChildren rest

/-- pathlib's `_iterate_directories`: the directory itself followed by every
descendant directory, depth-first.  `self` is the directory's
`(name, node)` pair. -/
def iterateDirectories (self : String × FSNode) : List (String × FSNode) :=
  self ::
    (match self.2 with
     | FSNode.file _ _ => []
     | FSNode.dir cs _ => iterateDirsChildren cs)

/-- Modelled from `pathlib.Path.glob` (CPython ≤ 3.12 semantics, checked
against 3.11): the pattern's `/`-separated segments are applied from the
directory downward.  A plain segment is fnmatch-applied to the current
directory's child names, descending only into directories when further
segments remain; the recursive segment `**` stands for the current
directory itself and every descendant directory, with the remaining
segments applied from each such directory — when `**` is final, those
directories themselves are the matches (so `glob("**")` returns the
directory itself and its descendant directories, not its direct children).
The duplicate suppression pathlib performs when several `**` segments
revisit a path is not modelled; no theorem below involves such a pattern.
`self` is the `(name, node)` pair of the current directory and the result
is `(name, node)` pairs. -/
def globSelect : String × FSNode → List (List Char) → List (String × FSNode)
  | _, [] => []
  | self, [seg] =>
    if seg = "**".data then iterateDirectories self
    else self.2.children.filter fun nc => globMatch seg nc.1.data
  | self, seg :: rest =>
    if seg = "**".data then
      (iterateDirectories self).flatMap fun nc => globSelect nc rest
    else
      (self.2.children.filter
        fun nc => globMatch seg nc.1.data && nc.2.isDir).flatMap
        fun nc => globSelect nc rest

/-- One element of the list built by `list_items_core` (src/cli.py lines
67-72): the dictionary with keys `name`, `type`, `size`, `modified`
(`modified` is kept as the raw st_mtime the `datetime` is built from). -/
structure DirEntry where
  name : String
  type : String
  size : Nat
  modified : Int
  deriving Repr, DecidableEq

def entryOf (nc : String × FSNode) : DirEntry :=
  { name := nc.1
    type := if nc.2.isDir then "dir" else "file"
    size := if nc.2.isDir then 0 else nc.2.byteSize
    modified := nc.2.mtime }

/-- Python's `<` on strings: lexicographic comparison of code points. -/
def lexLtb : List Char → List Char → Bool
  | [], [] => false
  | [], _ :: _ => true
  | _ :: _, [] => false
  | a :: as, b :: bs => a.toNat < b.toNat || (a = b && lexLtb as bs)

/-- Python's `<=` on strings: `<` or equal. -/
def lexLeb (a b : List Char) : Bool := lexLtb a b || a = b

/-- Python's `<=` on the sort key `(x["type"], x["name"])`: lexicographic
on the pair of strings. -/
def entryLE (a b : DirEntry) : Bool :=
  lexLtb a.type.data b.type.data ||
    (a.type.data = b.type.data && lexLeb a.name.data b.name.data)

/-- `entryLE` as a decidable relation, for use with the sort. -/
def entryLEP (a b : DirEntry) : Prop := entryLE a b = true

instance : DecidableRel entryLEP := fun a b =>
  inferInstanceAs (Decidable (entryLE a b = true))

/-- `src/cli.py` lines 60-73, `list_items_core(directory, pattern)`.
The directory argument is `none` when `directory.exists()` is false,
otherwise the node the path refers to; `dirPath` is the textual path, used
only in the error message.  `sorted(..., key=lambda x: (x["type"],
x["name"]))` is a stable sort by that key, modelled by the stable
`List.insertionSort` under `entryLEP`. -/
def list_items_core (directory : Option FSNode) (dirPath : String)
    (pattern : String) : Except PyErr (List DirEntry) :=
  match directory with
  | none => .error (.fileNotFound ("Directory not found: " ++ dirPath))
  | some d =>
    let items :=
      (globSelect (pathBaseName dirPath, d) (pyGlobSegments pattern)).map
        entryOf
    .ok (List.insertionSort entryLEP items)

/-- The names of the direct children of a node. -/
def directChildNames (d : FSNode) : List String := d.children.map Prod.fst

/-- The index of the last `.` in a name, if any (Python `name.rfind('.')`,
with the miss case as `none` instead of `-1`). -/
def rfindDot (l : List Char) : Option Nat :=
  match List.indexOf? '.' l.reverse with
  | none => none
  | some j => some (l.length - 1 - j)

/-- Python `Path(p).stem`: the base name without its suffix; the dot counts
as a suffix separator only at an index `i` with `0 < i < len(name) - 1`. -/
def pathStem (p : String) : String :=
  let name := (pathBaseName p).data
  match rfindDot name with
  | some i => if 0 < i ∧ i < name.length - 1 then ⟨name.take i⟩ else ⟨name⟩
  | none => ⟨name⟩

/-- Python `Path(p).suffix`: the final extension including the dot, or the
empty string. -/
def pathSuffix (p : String) : String :=
  let name := (pathBaseName p).data
  match rfindDot name with
  | some i => if 0 < i ∧ i < name.length - 1 then ⟨name.drop i⟩ else ""
  | none => ""

/-- `output_dir / f"{file.stem}_{transform}{file.suffix}"`
(src/cli.py line 154). -/
def outputPath (outDir file transform : String) : String :=
  outDir ++ "/" ++ pathStem file ++ "_" ++ transform ++ pathSuffix file

/-- The observable outcome of one run of the `process` command: the
filesystem writes it performed (path, content) in order, the recorded
per-file failures (file, message) in order, and the exit code (a normal
return is exit code 0). -/
structure ProcOutcome where
  writes : List (String × String)
  errors : List (String × String)
  exit : Nat
  deriving Repr, DecidableEq

/-- The body of the per-file loop of `process` (src/cli.py lines 148-167):
on success append the output write, on failure append `(file, str(e))` to
the error list and continue. -/
def procStep (fs : FileSys) (dir transform : String)
    (acc : List (String × String) × List (String × String)) (file : String) :
    List (String × String) × List (String × String) :=
  match process_file_core fs file transform with
  | .ok r => (acc.1 ++ [(outputPath dir file transform, r.result)], acc.2)
  | .error (.fileNotFound msg) => (acc.1, acc.2 ++ [(file, msg)])

/-- `src/cli.py` lines 77-180, the `process` command.  `confirmAnswer`
models the answer `Confirm.ask` would return; it is consulted only when
more than one file is given and neither `--yes` nor `--dry-run` is set
(src/cli.py lines 122-126).  Declining exits 130 before any work; a dry
run exits 0 before any write (lines 129-133); otherwise each file is
processed in turn with per-file error collection, and the exit code is 1
when any failure was recorded, else 0 (lines 148-180). -/
def processCmd (fs : FileSys) (files : List String) (transform : String)
    (output_dir : Option String) (cwd : String)
    (dry_run yes confirmAnswer : Bool) : ProcOutcome :=
  if files.length > 1 ∧ yes = false ∧ dry_run = false ∧ confirmAnswer = false then
    { writes := [], errors := [], exit := 130 }
  else if dry_run then
    { writes := [], errors := [], exit := 0 }
  else
    let dir := output_dir.getD cwd
    let res := files.foldl (procStep fs dir transform) ([], [])
    { writes := res.1, errors := res.2
      exit := if res.2.isEmpty then 0 else 1 }

/-- The write the loop performs for `file` when its processing succeeds,
`none` when it fails. -/
def okWrite (fs : FileSys) (dir transform file : String) :
    Option (String × String) :=
  match process_file_core fs file transform with
  | .ok r => some (outputPath dir file transform, r.result)
  | .error _ => none

/-- The failure the loop records for `file` when its processing fails,
`none` when it succeeds. -/
def errRecord (fs : FileSys) (transform file : String) :
    Option (String × String) :=
  match process_file_core fs file transform with
  | .ok _ => none
  | .error (.fileNotFound msg) => some (file, msg)

theorem lexLtb_connex (x : List Char) : ∀ y, lexLtb x y = false →
    lexLtb y x = false → x = y := by
  induction x with
  | nil =>
    intro y hxy _
    cases y with
    | nil => rfl
    | cons b bs => simp [lexLtb] at hxy
  | cons a as ih =>
    intro y hxy hyx
    cases y with
    | nil => simp [lexLtb] at hyx
    | cons b bs =>
      simp [lexLtb] at hxy hyx
      obtain ⟨h1, h2⟩ := hxy
      obtain ⟨h3, h4⟩ := hyx
      have htn : a.toNat = b.toNat := by omega
      have hab : a = b := Char.ext (UInt32.ext htn)
      subst hab
      rw [ih bs (h2 rfl) (h4 rfl)]

theorem lexLtb_trans (x : List Char) : ∀ y z, lexLtb x y = true →
    lexLtb y z = true → lexLtb x z = true := by
  induction x with
  | nil =>
    intro y z hxy hyz
    cases z with
    | nil =>
      cases y with
      | nil => simp [lexLtb] at hxy
      | cons b bs => simp [lexLtb] at hyz
    | cons c cs => simp [lexLtb]
  | cons a as ih =>
    intro y z hxy hyz
    cases y with
    | nil => simp [lexLtb] at hxy
    | cons b bs =>
      cases z with
      | nil => simp [lexLtb] at hyz
      | cons c cs =>
        simp [lexLtb] at hxy hyz ⊢
        rcases hxy with h | ⟨hab, h⟩ <;> rcases hyz with h' | ⟨hbc, h'⟩
        · left; omega
        · subst hbc; exact Or.inl h
        · subst hab; exact Or.inl h'
        · exact Or.inr ⟨hab.trans hbc, ih bs cs h h'⟩

theorem lexLeb_trans (x y z : List Char) (hxy : lexLeb x y = true)
    (hyz : lexLeb y z = true) : lexLeb x z = true := by
  simp [lexLeb] at hxy hyz ⊢
  rcases hxy with h | h <;> rcases hyz with h' | h'
  · exact Or.inl (lexLtb_trans x y z h h')
  · subst h'; exact Or.inl h
  · subst h; exact Or.inl h'
  · subst h; exact Or.inr h'

theorem lexLeb_total (x y : List Char) :
    lexLeb x y = true ∨ lexLeb y x = true := by
  cases hxy : lexLtb x y
  · cases hyx : lexLtb y x
    · have heq : x = y := lexLtb_connex x y hxy hyx
      exact Or.inl (by simp [lexLeb, heq])
    · exact Or.inr (by simp [lexLeb, hyx])
  · exact Or.inl (by simp [lexLeb, hxy])

theorem entryLEP_trans (a b c : DirEntry) (h1 : entryLEP a b)
    (h2 : entryLEP b c) : entryLEP a c := by
  unfold entryLEP entryLE at h1 h2 ⊢
  simp at h1 h2 ⊢
  rcases h1 with h | ⟨hab, h⟩ <;> rcases h2 with h' | ⟨hbc, h'⟩
  · exact Or.inl (lexLtb_trans _ _ _ h h')
  · rw [hbc] at h; exact Or.inl h
  · rw [hab]; exact Or.inl h'
  · exact Or.inr ⟨hab.trans hbc, lexLeb_trans _ _ _ h h'⟩

theorem entryLEP_total (a b : DirEntry) : entryLEP a b ∨ entryLEP b a := by
  unfold entryLEP entryLE
  cases hxy : lexLtb a.type.data b.type.data
  · cases hyx : lexLtb b.type.data a.type.data
    · have heq : a.type.data = b.type.data := lexLtb_connex _ _ hxy hyx
      rcases lexLeb_total a.name.data b.name.data with h | h
      · exact Or.inl (by simp [heq, h])
      · exact Or.inr (by simp [heq, h])
    · exact Or.inr (by simp [hyx])
  · exact Or.inl (by simp [hxy])

theorem entryLE_file_dir (a b : DirEntry) (ha : a.type = "file")
    (hb : b.type = "dir") : entryLE a b = false := by
  unfold entryLE
  rw [ha, hb]
  rfl

theorem process_file_core_ok (fs : FileSys) (p t C : String)
    (h : List.lookup p fs = some C) :
    process_file_core fs p t =
      Except.ok { original_size := C.length
                  processed_size := (pyTransform t C).length
                  transform := t
                  result := pyTransform t C } := by
  simp [process_file_core, h]

theorem process_file_core_notfound (fs : FileSys) (p t : String)
    (h : List.lookup p fs = none) :
    process_file_core fs p t =
      Except.error (.fileNotFound ("File not found: " ++ p)) := by
  simp [process_file_core, h]

theorem pyUpperChar_length_of_ascii (c : Char) (h : c.toNat < 128) :
    (pyUpperChar c).length = 1 := by
  unfold pyUpperChar
  split
  · rfl
  · split
    · rename_i hc
      subst hc
      simp at h
    · rfl

theorem pyLowerChar_length_of_ascii (c : Char) (_ : c.toNat < 128) :
    (pyLowerChar c).length = 1 := by
  unfold pyLowerChar
  split <;> rfl

theorem flatMap_upper_length (l : List Char) (h : ∀ c ∈ l, c.toNat < 128) :
    (l.flatMap pyUpperChar).length = l.length := by
  induction l with
  | nil => rfl
  | cons c cs ih =>
    have hc := h c (by simp)
    have hcs : ∀ x ∈ cs, x.toNat < 128 := fun x hx => h x (by simp [hx])
    simp [List.flatMap_cons, pyUpperChar_length_of_ascii c hc, ih hcs]
    omega

theorem flatMap_lower_length (l : List Char) (h : ∀ c ∈ l, c.toNat < 128) :
    (l.flatMap pyLowerChar).length = l.length := by
  induction l with
  | nil => rfl
  | cons c cs ih =>
    have hc := h c (by simp)
    have hcs : ∀ x ∈ cs, x.toNat < 128 := fun x hx => h x (by simp [hx])
    simp [List.flatMap_cons, pyLowerChar_length_of_ascii c hc, ih hcs]
    omega

theorem pyUpper_length_of_ascii (C : String)
    (h : ∀ c ∈ C.data, c.toNat < 128) : (pyUpper C).length = C.length :=
  flatMap_upper_length C.data h

theorem pyLower_length_of_ascii (C : String)
    (h : ∀ c ∈ C.data, c.toNat < 128) : (pyLower C).length = C.length :=
  flatMap_lower_length C.data h

theorem okWrite_of_lookup (fs : FileSys) (dir t f C : String)
    (h : List.lookup f fs = some C) :
    okWrite fs dir t f = some (outputPath dir f t, pyTransform t C) := by
  simp [okWrite, process_file_core, h]

theorem okWrite_of_notfound (fs : FileSys) (dir t f : String)
    (h : List.lookup f fs = none) : okWrite fs dir t f = none := by
  simp [okWrite, process_file_core, h]

theorem errRecord_of_lookup (fs : FileSys) (t f C : String)
    (h : List.lookup f fs = some C) : errRecord fs t f = none := by
  simp [errRecord, process_file_core, h]

theorem errRecord_of_notfound (fs : FileSys) (t f : String)
    (h : List.lookup f fs = none) :
    errRecord fs t f = some (f, "File not found: " ++ f) := by
  simp [errRecord, process_file_core, h]

theorem foldl_procStep (fs : FileSys) (dir t : String) :
    ∀ (files : List String) (ws es : List (String × String)),
    files.foldl (procStep fs dir t) (ws, es) =
      (ws ++ files.filterMap (okWrite fs dir t),
       es ++ files.filterMap (errRecord fs t)) := by
  intro files
  induction files with
  | nil => intro ws es; simp
  | cons f rest ih =>
    intro ws es
    simp only [List.foldl_cons]
    cases h : process_file_core fs f t with
    | ok r =>
      rw [show procStep fs dir t (ws, es) f =
        (ws ++ [(outputPath dir f t, r.result)], es) by simp [procStep, h]]
      rw [ih]
      simp [okWrite, errRecord, h]
    | error e =>
      cases e with
      | fileNotFound msg =>
        rw [show procStep fs dir t (ws, es) f = (ws, es ++ [(f, msg)]) by
          simp [procStep, h]]
        rw [ih]
        simp [okWrite, errRecord, h]

theorem filterMap_errRecord_nil (fs : FileSys) (t : String) (l : List String)
    (h : ∀ f ∈ l, (List.lookup f fs).isSome = true) :
    l.filterMap (errRecord fs t) = [] := by
  induction l with
  | nil => rfl
  | cons f rest ih =>
    obtain ⟨C, hC⟩ := Option.isSome_iff_exists.mp (h f (by simp))
    rw [List.filterMap_cons, errRecord_of_lookup fs t f C hC]
    exact ih fun x hx => h x (by simp [hx])

theorem filterMap_okWrite_map (fs : FileSys) (dir t : String)
    (l : List String) (h : ∀ f ∈ l, (List.lookup f fs).isSome = true) :
    l.filterMap (okWrite fs dir t) =
      l.map fun f => (outputPath dir f t,
        pyTransform t ((List.lookup f fs).getD "")) := by
  induction l with
  | nil => rfl
  | cons f rest ih =>
    obtain ⟨C, hC⟩ := Option.isSome_iff_exists.mp (h f (by simp))
    rw [List.filterMap_cons, okWrite_of_lookup fs dir t f C hC, List.map_cons,
      hC]
    rw [ih fun x hx => h x (by simp [hx])]
    rfl

theorem list_items_core_ok (d : FSNode) (dp pat : String)
    (out : List DirEntry)
    (h : list_items_core (some d) dp pat = Except.ok out) :
    out = List.insertionSort entryLEP
      ((globSelect (pathBaseName dp, d) (pyGlobSegments pat)).map entryOf) := by
  simp [list_items_core] at h
  exact h.symm

/-- The recursive wildcard case of `globSelect` is live and matches the
observed `pathlib` behavior (CPython 3.11): on the directory
`base/{sub/{inner/, a.txt}, top.txt}` the pattern `**` selects the
directory itself and its descendant directories `sub` and `inner` — not
the direct children. -/
theorem globSelect_recursive_wildcard_subtree_dirs :
    (globSelect ("base",
      FSNode.dir
        [("sub", .dir [("inner", .dir [] 9), ("a.txt", .file "hi" 4)] 2),
         ("top.txt", .file "t" 1)] 0) (pyGlobSegments "**")).map Prod.fst =
    ["base", "sub", "inner"] := by
  simp [globSelect, pyGlobSegments, splitOnSlash, iterateDirectories,
    iterateDirsChildren]

/-- C1, counterexample: the claim "processed_size == original_size == len(C)
whenever the transform is upper or lower" fails on the code, because
Python's Unicode case mapping is not length-preserving: for the one-character
content `ß`, `upper` produces the two-character `SS`, so `processed_size`
is 2 while `original_size = len(C) = 1`. -/
theorem C1_counterexample :
    process_file_core [("f.txt", "ß")] "f.txt" "upper" =
      Except.ok { original_size := ("ß" : String).length, processed_size := 2,
                  transform := "upper", result := "SS" } ∧
    ("ß" : String).length ≠ 2 :=
  ⟨rfl, by decide⟩

/-- C1 (amended): for file content consisting of characters whose case
mapping is length-preserving — in particular all-ASCII content — the
`upper` and `lower` transforms satisfy
`processed_size == original_size == len(C)`. -/
theorem C1_case_transform_length_preserving_on_ascii
    (fs : FileSys) (p C t : String)
    (hC : List.lookup p fs = some C)
    (hascii : ∀ c ∈ C.data, c.toNat < 128)
    (ht : t = "upper" ∨ t = "lower") :
    process_file_core fs p t =
      Except.ok { original_size := C.length, processed_size := C.length,
                  transform := t, result := pyTransform t C } := by
  rw [process_file_core_ok fs p t C hC]
  rcases ht with rfl | rfl
  · rw [show pyTransform "upper" C = pyUpper C from rfl,
      pyUpper_length_of_ascii C hascii]
  · rw [show pyTransform "lower" C = pyLower C from rfl,
      pyLower_length_of_ascii C hascii]

/-- Witness for the amended C1 at the ASCII content `Hi`. -/
theorem C1_witness :
    process_file_core [("a.txt", "Hi")] "a.txt" "upper" =
      Except.ok { original_size := ("Hi" : String).length,
                  processed_size := ("Hi" : String).length,
                  transform := "upper", result := pyTransform "upper" "Hi" } :=
  C1_case_transform_length_preserving_on_ascii [("a.txt", "Hi")] "a.txt" "Hi"
    "upper" (by decide) (by decide) (Or.inl rfl)

/-- C2: with the file readable, the transform operation succeeds for every
transform name: `upper` yields the uppercased content, `lower` the
lowercased content, and any other name is the identity — an unrecognized
transform name never causes an error. -/
theorem C2_transform_dispatch (fs : FileSys) (p C t : String)
    (hC : List.lookup p fs = some C)
    (hu : t ≠ "upper") (hl : t ≠ "lower") :
    process_file_core fs p t =
      Except.ok { original_size := C.length, processed_size := C.length,
                  transform := t, result := C } ∧
    process_file_core fs p "upper" =
      Except.ok { original_size := C.length,
                  processed_size := (pyUpper C).length,
                  transform := "upper", result := pyUpper C } ∧
    process_file_core fs p "lower" =
      Except.ok { original_size := C.length,
                  processed_size := (pyLower C).length,
                  transform := "lower", result := pyLower C } := by
  refine ⟨?_, ?_, ?_⟩
  · rw [process_file_core_ok fs p t C hC]
    simp [pyTransform, hu, hl]
  · rw [process_file_core_ok fs p "upper" C hC]
    rfl
  · rw [process_file_core_ok fs p "lower" C hC]
    rfl

/-- Witness for C2 at the unrecognized transform name `rot13`. -/
theorem C2_witness :
    process_file_core [("a.txt", "AbC")] "a.txt" "rot13" =
      Except.ok { original_size := ("AbC" : String).length,
                  processed_size := ("AbC" : String).length,
                  transform := "rot13", result := "AbC" } ∧
    process_file_core [("a.txt", "AbC")] "a.txt" "upper" =
      Except.ok { original_size := ("AbC" : String).length,
                  processed_size := (pyUpper "AbC").length,
                  transform := "upper", result := pyUpper "AbC" } ∧
    process_file_core [("a.txt", "AbC")] "a.txt" "lower" =
      Except.ok { original_size := ("AbC" : String).length,
                  processed_size := (pyLower "AbC").length,
                  transform := "lower", result := pyLower "AbC" } :=
  C2_transform_dispatch [("a.txt", "AbC")] "a.txt" "AbC" "rot13"
    (by decide) (by decide) (by decide)

/-- C9: on a path that does not exist the transform operation fails with the
NotFound error (and, through the command layer, a missing single file
produces the recorded failure and exit code 1 with zero writes); the listing
operation on a non-existent directory likewise fails with NotFound. -/
theorem C9_missing_target (fs : FileSys) (p t dp pat cwd : String)
    (od : Option String) (ca : Bool)
    (hp : List.lookup p fs = none) :
    process_file_core fs p t =
      Except.error (.fileNotFound ("File not found: " ++ p)) ∧
    list_items_core none dp pat =
      Except.error (.fileNotFound ("Directory not found: " ++ dp)) ∧
    processCmd fs [p] t od cwd false false ca =
      { writes := [], errors := [(p, "File not found: " ++ p)], exit := 1 } := by
  refine ⟨process_file_core_notfound fs p t hp, rfl, ?_⟩
  simp [processCmd, procStep, process_file_core, hp]

/-- Witness for C9 at an empty filesystem and the path `nope.txt`. -/
theorem C9_witness :
    process_file_core [] "nope.txt" "upper" =
      Except.error (.fileNotFound ("File not found: " ++ "nope.txt")) ∧
    list_items_core none "/gone" "*" =
      Except.error (.fileNotFound ("Directory not found: " ++ "/gone")) ∧
    processCmd [] ["nope.txt"] "upper" none "/cwd" false false false =
      { writes := [], errors := [("nope.txt", "File not found: " ++ "nope.txt")],
        exit := 1 } :=
  C9_missing_target [] "nope.txt" "upper" "/gone" "*" "/cwd" none false rfl

/-- C10: every successfully returned TransformResult has `processed_size`
equal to the length of its `result` and `original_size` equal to the length
of the content read, so the two sizes agree exactly when the applied
transform preserved the content's length. -/
theorem C10_sizes_track_lengths (fs : FileSys) (p t C : String)
    (r : TransformResult) (hC : List.lookup p fs = some C)
    (hr : process_file_core fs p t = Except.ok r) :
    r.processed_size = r.result.length ∧ r.original_size = C.length ∧
    (r.processed_size = r.original_size ↔ r.result.length = C.length) := by
  rw [process_file_core_ok fs p t C hC] at hr
  have h := Except.ok.inj hr
  subst h
  exact ⟨rfl, rfl, Iff.rfl⟩

/-- Witness for C10 at content `hi` and transform `upper`. -/
theorem C10_witness :
    ({ original_size := 2, processed_size := 2, transform := "upper",
       result := "HI" } : TransformResult).processed_size =
      ("HI" : String).length ∧
    ({ original_size := 2, processed_size := 2, transform := "upper",
       result := "HI" } : TransformResult).original_size =
      ("hi" : String).length ∧
    (({ original_size := 2, processed_size := 2, transform := "upper",
        result := "HI" } : TransformResult).processed_size =
      ({ original_size := 2, processed_size := 2, transform := "upper",
         result := "HI" } : TransformResult).original_size ↔
      ("HI" : String).length = ("hi" : String).length) :=
  C10_sizes_track_lengths [("a.txt", "hi")] "a.txt" "upper" "hi"
    { original_size := 2, processed_size := 2, transform := "upper",
      result := "HI" } (by decide) rfl

/-- C3: the sequence returned by the listing operation is sorted by the two
keys (kind, name) ascending (code-point lexicographic on each string), and —
since the kind string `dir` compares before `file` — no file entry ever
precedes a directory entry. -/
theorem C3_listing_sorted (d : FSNode) (dp pat : String)
    (out : List DirEntry)
    (h : list_items_core (some d) dp pat = Except.ok out) :
    List.Sorted entryLEP out ∧
    ∀ i j : Fin out.length, i < j →
      ¬((out.get i).type = "file" ∧ (out.get j).type = "dir") := by
  rw [list_items_core_ok d dp pat out h]
  haveI : IsTotal DirEntry entryLEP := ⟨entryLEP_total⟩
  haveI : IsTrans DirEntry entryLEP := ⟨fun a b c => entryLEP_trans a b c⟩
  have hs := List.sorted_insertionSort entryLEP
    ((globSelect (pathBaseName dp, d) (pyGlobSegments pat)).map entryOf)
  refine ⟨hs, ?_⟩
  rintro i j hij ⟨hf, hd2⟩
  have hp' : entryLE
      ((List.insertionSort entryLEP
        ((globSelect (pathBaseName dp, d) (pyGlobSegments pat)).map
          entryOf)).get i)
      ((List.insertionSort entryLEP
        ((globSelect (pathBaseName dp, d) (pyGlobSegments pat)).map
          entryOf)).get j) =
      true := List.pairwise_iff_get.mp hs i j hij
  rw [entryLE_file_dir _ _ hf hd2] at hp'
  exact Bool.false_ne_true hp'

/-- Witness for C3 on a directory holding files `b.txt`, `a.txt` and a
subdirectory `a`. -/
theorem C3_witness :
    List.Sorted entryLEP
      [{ name := "a", type := "dir", size := 0, modified := 3 },
       { name := "a.txt", type := "file", size := 2, modified := 7 },
       { name := "b.txt", type := "file", size := 1, modified := 5 }] ∧
    ¬((({ name := "a", type := "dir", size := 0, modified := 3 } :
        DirEntry)).type = "file" ∧
      (({ name := "b.txt", type := "file", size := 1, modified := 5 } :
        DirEntry)).type = "dir") :=
  ⟨(C3_listing_sorted
      (FSNode.dir [("b.txt", .file "x" 5), ("a", .dir [] 3),
        ("a.txt", .file "yz" 7)] 0) "d" "*" _ rfl).1,
   (C3_listing_sorted
      (FSNode.dir [("b.txt", .file "x" 5), ("a", .dir [] 3),
        ("a.txt", .file "yz" 7)] 0) "d" "*" _ rfl).2
     ⟨0, by decide⟩ ⟨2, by decide⟩ (by decide)⟩

/-- C4, counterexample: the claim says every entry kind is one of the two
strings `file` or `directory`, but the code tags directories with the string
`dir` (src/cli.py line 69), which is neither. -/
theorem C4_counterexample :
    list_items_core (some (FSNode.dir [("sub", FSNode.dir [] 5)] 0)) "d" "*" =
      Except.ok [{ name := "sub", type := "dir", size := 0, modified := 5 }] ∧
    ({ name := "sub", type := "dir", size := 0, modified := 5 } :
      DirEntry).type ≠ "directory" ∧
    ({ name := "sub", type := "dir", size := 0, modified := 5 } :
      DirEntry).type ≠ "file" :=
  ⟨rfl, by decide, by decide⟩

/-- C4 (amended): every entry produced by the listing operation has kind
`file` or `dir` (the code's string for directories, not `directory`), and
every `dir` entry reports `size == 0` regardless of actual subtree size. -/
theorem C4_entry_kinds (d : FSNode) (dp pat : String) (out : List DirEntry)
    (h : list_items_core (some d) dp pat = Except.ok out) :
    ∀ e ∈ out, (e.type = "file" ∨ e.type = "dir") ∧
      (e.type = "dir" → e.size = 0) := by
  rw [list_items_core_ok d dp pat out h]
  intro e he
  have hperm := List.perm_insertionSort entryLEP
    ((globSelect (pathBaseName dp, d) (pyGlobSegments pat)).map entryOf)
  have he' := hperm.mem_iff.mp he
  obtain ⟨nc, _, rfl⟩ := List.mem_map.mp he'
  cases hnode : nc.2 with
  | file c m => simp [entryOf, hnode, FSNode.isDir]
  | dir cs m => simp [entryOf, hnode, FSNode.isDir]

/-- Witness for the amended C4 at the subdirectory entry `a`. -/
theorem C4_witness :
    (({ name := "a", type := "dir", size := 0, modified := 3 } :
        DirEntry).type = "file" ∨
      ({ name := "a", type := "dir", size := 0, modified := 3 } :
        DirEntry).type = "dir") ∧
    (({ name := "a", type := "dir", size := 0, modified := 3 } :
        DirEntry).type = "dir" →
      ({ name := "a", type := "dir", size := 0, modified := 3 } :
        DirEntry).size = 0) :=
  C4_entry_kinds
    (FSNode.dir [("b.txt", .file "x" 5), ("a", .dir [] 3),
      ("a.txt", .file "yz" 7)] 0) "d" "*" _ rfl
    { name := "a", type := "dir", size := 0, modified := 3 } (by decide)

/-- C5, counterexample: the claim says every returned entry is a direct
child of the directory for every glob pattern, but `Path.glob` descends for
multi-segment patterns: on a directory whose only child is the subdirectory
`sub`, the pattern `*/*` returns `sub`'s file `a.txt`, which is not a direct
child. -/
theorem C5_counterexample :
    list_items_core
      (some (FSNode.dir
        [("sub", FSNode.dir [("a.txt", FSNode.file "hi" 4)] 2)] 0))
      "d" "*/*" =
      Except.ok [{ name := "a.txt", type := "file", size := 2,
                   modified := 4 }] ∧
    "a.txt" ∉ directChildNames
      (FSNode.dir [("sub", FSNode.dir [("a.txt", FSNode.file "hi" 4)] 2)] 0) :=
  ⟨rfl, by decide⟩

/-- C5 (amended): for a pattern with a single `/`-free segment other than
the recursive wildcard `**` (the single-level globs the spec describes)
every returned entry is a direct child of the directory; patterns
containing `/` can instead select entries from subdirectories, and the
recursive pattern `**` returns the directory itself and its descendant
directories. -/
theorem C5_single_segment_lists_direct_children (d : FSNode)
    (dp pat : String) (seg : List Char) (out : List DirEntry)
    (hseg : pyGlobSegments pat = [seg])
    (hstar : seg ≠ "**".data)
    (h : list_items_core (some d) dp pat = Except.ok out) :
    ∀ e ∈ out, e.name ∈ directChildNames d := by
  rw [list_items_core_ok d dp pat out h, hseg]
  intro e he
  have hperm := List.perm_insertionSort entryLEP
    ((globSelect (pathBaseName dp, d) [seg]).map entryOf)
  have he' := hperm.mem_iff.mp he
  obtain ⟨nc, hnc, rfl⟩ := List.mem_map.mp he'
  have hsel : globSelect (pathBaseName dp, d) [seg] =
      d.children.filter (fun nc => globMatch seg nc.1.data) := by
    simp [globSelect, hstar]
  rw [hsel] at hnc
  show nc.1 ∈ d.children.map Prod.fst
  exact List.mem_map_of_mem Prod.fst (List.mem_filter.mp hnc).1

/-- Witness for the amended C5: with pattern `*` every listed name is a
direct child name. -/
theorem C5_witness :
    ("a" : String) ∈ directChildNames
      (FSNode.dir [("b.txt", .file "x" 5), ("a", .dir [] 3),
        ("a.txt", .file "yz" 7)] 0) :=
  C5_single_segment_lists_direct_children
    (FSNode.dir [("b.txt", .file "x" 5), ("a", .dir [] 3),
      ("a.txt", .file "yz" 7)] 0) "d" "*" (String.data "*") _ rfl (by decide)
    rfl { name := "a", type := "dir", size := 0, modified := 3 } (by decide)

/-- C6: processing continues past a failing file: with one bad file among
good ones, exactly one failure is recorded (for the bad file), every good
file's transformed result is written to
`<output_dir>/<stem>_<transform><suffix>`, and the command exits 1; with
zero failures it exits 0. -/
theorem C6_continue_on_error (fs : FileSys) (l1 l2 : List String)
    (bad t cwd : String) (od : Option String)
    (hbad : List.lookup bad fs = none)
    (hok : ∀ f ∈ l1 ++ l2, (List.lookup f fs).isSome = true) :
    (processCmd fs (l1 ++ bad :: l2) t od cwd false true false).errors =
      [(bad, "File not found: " ++ bad)] ∧
    (processCmd fs (l1 ++ bad :: l2) t od cwd false true false).exit = 1 ∧
    (processCmd fs (l1 ++ bad :: l2) t od cwd false true false).writes =
      ((l1 ++ l2).map fun f => (outputPath (od.getD cwd) f t,
        pyTransform t ((List.lookup f fs).getD ""))) ∧
    (∀ files : List String,
      (∀ f ∈ files, (List.lookup f fs).isSome = true) →
      (processCmd fs files t od cwd false true false).errors = [] ∧
      (processCmd fs files t od cwd false true false).exit = 0) := by
  have hcmd : ∀ files : List String,
      processCmd fs files t od cwd false true false =
        { writes := files.filterMap (okWrite fs (od.getD cwd) t)
          errors := files.filterMap (errRecord fs t)
          exit := if (files.filterMap (errRecord fs t)).isEmpty
            then 0 else 1 } := by
    intro files
    simp [processCmd, foldl_procStep fs (od.getD cwd) t files]
  have h1 : ∀ f ∈ l1, (List.lookup f fs).isSome = true :=
    fun f hf => hok f (List.mem_append_left _ hf)
  have h2 : ∀ f ∈ l2, (List.lookup f fs).isSome = true :=
    fun f hf => hok f (List.mem_append_right _ hf)
  have herr : (l1 ++ bad :: l2).filterMap (errRecord fs t) =
      [(bad, "File not found: " ++ bad)] := by
    simp [List.filterMap_append, List.filterMap_cons,
      filterMap_errRecord_nil fs t l1 h1, filterMap_errRecord_nil fs t l2 h2,
      errRecord_of_notfound fs t bad hbad]
  have hwr : (l1 ++ bad :: l2).filterMap (okWrite fs (od.getD cwd) t) =
      (l1 ++ l2).map fun f => (outputPath (od.getD cwd) f t,
        pyTransform t ((List.lookup f fs).getD "")) := by
    simp [List.filterMap_append, List.filterMap_cons,
      okWrite_of_notfound fs (od.getD cwd) t bad hbad,
      filterMap_okWrite_map fs (od.getD cwd) t l1 h1,
      filterMap_okWrite_map fs (od.getD cwd) t l2 h2]
  refine ⟨?_, ?_, ?_, ?_⟩
  · rw [hcmd, herr]
  · rw [hcmd]
    simp [herr]
  · rw [hcmd, hwr]
  · intro files hfiles
    rw [hcmd files]
    simp [filterMap_errRecord_nil fs t files hfiles]

/-- Witness for C6: three files of which the middle one is missing; the two
good ones are written, the bad one is the sole recorded failure, exit 1;
and a batch of only good files exits 0. -/
theorem C6_witness :
    (processCmd [("a.txt", "hi"), ("b.txt", "yo")]
      (["a.txt"] ++ "bad.txt" :: ["b.txt"]) "upper" none "/cwd"
      false true false).errors =
      [("bad.txt", "File not found: " ++ "bad.txt")] ∧
    (processCmd [("a.txt", "hi"), ("b.txt", "yo")]
      (["a.txt"] ++ "bad.txt" :: ["b.txt"]) "upper" none "/cwd"
      false true false).exit = 1 ∧
    (processCmd [("a.txt", "hi"), ("b.txt", "yo")]
      (["a.txt"] ++ "bad.txt" :: ["b.txt"]) "upper" none "/cwd"
      false true false).writes =
      ((["a.txt"] ++ ["b.txt"]).map fun f =>
        (outputPath ((none : Option String).getD "/cwd") f "upper",
         pyTransform "upper"
           ((List.lookup f [("a.txt", "hi"), ("b.txt", "yo")]).getD ""))) ∧
    ((processCmd [("a.txt", "hi"), ("b.txt", "yo")] ["a.txt", "b.txt"]
        "upper" none "/cwd" false true false).errors = [] ∧
     (processCmd [("a.txt", "hi"), ("b.txt", "yo")] ["a.txt", "b.txt"]
        "upper" none "/cwd" false true false).exit = 0) :=
  ⟨(C6_continue_on_error [("a.txt", "hi"), ("b.txt", "yo")] ["a.txt"]
      ["b.txt"] "bad.txt" "upper" "/cwd" none (by decide) (by decide)).1,
   (C6_continue_on_error [("a.txt", "hi"), ("b.txt", "yo")] ["a.txt"]
      ["b.txt"] "bad.txt" "upper" "/cwd" none (by decide) (by decide)).2.1,
   (C6_continue_on_error [("a.txt", "hi"), ("b.txt", "yo")] ["a.txt"]
      ["b.txt"] "bad.txt" "upper" "/cwd" none (by decide) (by decide)).2.2.1,
   (C6_continue_on_error [("a.txt", "hi"), ("b.txt", "yo")] ["a.txt"]
      ["b.txt"] "bad.txt" "upper" "/cwd" none (by decide) (by decide)).2.2.2
     ["a.txt", "b.txt"] (by decide)⟩

/-- C7: with `--dry-run` set the process command performs zero writes and
exits 0, for every file list and every setting of `--yes` and of the
would-be confirmation answer (so no confirmation outcome can affect it). -/
theorem C7_dry_run_writes_nothing (fs : FileSys) (files : List String)
    (t cwd : String) (od : Option String) (yes ca : Bool) :
    processCmd fs files t od cwd true yes ca =
      { writes := [], errors := [], exit := 0 } := by
  simp [processCmd]

/-- C8: with two or more files, `--yes` unset, `--dry-run` unset and the
confirmation declined, the process command performs zero writes and exits
130; with a single file the outcome does not depend on the confirmation
answer at all (no confirmation is requested). -/
theorem C8_declined_confirmation (fs : FileSys) (files : List String)
    (t cwd : String) (od : Option String) (h2 : 2 ≤ files.length) :
    processCmd fs files t od cwd false false false =
      { writes := [], errors := [], exit := 130 } ∧
    ∀ (f : String) (ca ca_alt : Bool),
      processCmd fs [f] t od cwd false false ca =
        processCmd fs [f] t od cwd false false ca_alt := by
  constructor
  · have hgt : files.length > 1 := h2
    simp [processCmd, hgt]
  · intro f ca ca_alt
    simp [processCmd]

/-- Witness for C8: two files and a declined confirmation give exit 130 and
no writes; a single file gives the same outcome whatever the confirmation
answer would have been. -/
theorem C8_witness :
    processCmd [] ["a", "b"] "upper" none "/cwd" false false false =
      { writes := [], errors := [], exit := 130 } ∧
    processCmd [] ["x"] "upper" none "/cwd" false false true =
      processCmd [] ["x"] "upper" none "/cwd" false false false :=
  ⟨(C8_declined_confirmation [] ["a", "b"] "upper" "/cwd" none
      (by decide)).1,
   (C8_declined_confirmation [] ["a", "b"] "upper" "/cwd" none
      (by decide)).2 "x" true false⟩

end ModernCLI
